import Mathlib

/-!
Verification of the assistants CRUD service (`src/impl/routes/assistants.py`).

The route handlers are embedded as pure functions; effectful inputs
(the generated uuid, the current time) become explicit parameters, and the
Cassandra-backed store becomes an explicit `Store` value threaded through
each operation.  The `CassandraClient` adapter itself is not part of the
source tree, so its four operations are modelled from the spec's Store
Adapter contract (§6): a table keyed by `id` supporting upsert-by-id,
get-by-id, full scan in a store-defined order, and delete-by-id.
-/

namespace Assistants

/-- Tool variant tag: `code_interpreter`, `retrieval` or `function`. -/
inductive ToolType
  | code_interpreter
  | retrieval
  | function
deriving DecidableEq

/-- One entry of an assistant's `tools` list: a type tag plus an optional
function-definition payload (opaque here, only its equality matters). -/
structure AssistantObjectToolsInner where
  type : ToolType
  function : Option String
deriving DecidableEq

/-- Request body of `POST /assistants` (`CreateAssistantRequest`); every
field the handler touches is optional in the wire model. -/
structure CreateAssistantRequest where
  model : Option String
  name : Option String
  description : Option String
  instructions : Option String
  tools : Option (List AssistantObjectToolsInner)
  file_ids : Option (List String)
  metadata : Option (List (String × String))
deriving DecidableEq

/-- Request body of `POST /assistants/{id}` (`ModifyAssistantRequest`). -/
structure ModifyAssistantRequest where
  model : Option String
  name : Option String
  description : Option String
  instructions : Option String
  tools : Option (List AssistantObjectToolsInner)
  file_ids : Option (List String)
  metadata : Option (List (String × String))
deriving DecidableEq

/-- Public `AssistantObject` shape returned by the handlers. -/
structure AssistantObject where
  id : String
  object : String
  created_at : Nat
  name : Option String
  description : Option String
  model : Option String
  instructions : Option String
  tools : List AssistantObjectToolsInner
  file_ids : List String
  metadata : List (String × String)
deriving DecidableEq

/-- `DeleteAssistantResponse` shape. -/
structure DeleteAssistantResponse where
  id : String
  deleted : Bool
  object : String
deriving DecidableEq

/-- `ListAssistantsResponse` shape. -/
structure ListAssistantsResponse where
  data : List AssistantObject
  object : String
  first_id : String
  last_id : String
  has_more : Bool
deriving DecidableEq

/-- FastAPI `HTTPException(status_code, detail)` raised by the handlers. -/
structure HTTPException where
  status_code : Nat
  detail : String
deriving DecidableEq

/-- One row of the `assistants` table, with nullable columns as stored by
`upsert_assistant`.  `created_at` is epoch seconds (`time.mktime`). -/
structure AssistantRow where
  id : String
  created_at : Nat
  name : Option String
  description : Option String
  model : Option String
  instructions : Option String
  tools : Option (List AssistantObjectToolsInner)
  file_ids : Option (List String)
  metadata : Option (List (String × String))
  object : String
deriving DecidableEq

/-- Modelled from the spec: the persistent `assistants` table backing
`CassandraClient` (not under src), per the §6 Store Adapter contract —
a table keyed by `id`, full scan returning rows in a store-defined order
(here, the list order). -/
structure Store where
  rows : List AssistantRow
deriving DecidableEq

/-- Modelled from the spec: `CassandraClient.get_assistant` row lookup —
get-by-id on the table keyed by `id`. -/
def Store.get_assistant (s : Store) (id : String) : Option AssistantRow :=
  s.rows.find? (fun r => r.id == id)

/-- Modelled from the spec: `CassandraClient.upsert_assistant` — per-row
atomic upsert-by-id; replaces any row with the same id. -/
def Store.upsert_assistant (s : Store) (row : AssistantRow) : Store :=
  { rows := row :: s.rows.filter (fun r => r.id != row.id) }

/-- Modelled from the spec: `CassandraClient.delete_assistant` —
unconditional delete-by-id. -/
def Store.delete_assistant (s : Store) (id : String) : Store :=
  { rows := s.rows.filter (fun r => r.id != id) }

/-- Modelled from the spec: `CassandraClient.selectAllFromTable` — full scan
returning rows in the store-defined order. -/
def Store.selectAllFromTable (s : Store) : List AssistantRow :=
  s.rows

/-- The row-to-public mapping of `list_assistants` (source lines 61–93):
stored seconds become epoch milliseconds, null `metadata`/`file_ids`/`tools`
become empty defaults, every tool entry is decoded, all other columns pass
through unchanged (in particular a null `name` stays null). -/
def toPublic (assistant : AssistantRow) : AssistantObject :=
  let created_at := assistant.created_at * 1000
  let metadata := match assistant.metadata with
    | none => []
    | some m => m
  let file_ids := match assistant.file_ids with
    | none => []
    | some f => f
  let tools := match assistant.tools with
    | none => []
    | some ts => ts
  { id := assistant.id
    object := "assistant"
    created_at := created_at
    name := assistant.name
    description := assistant.description
    model := assistant.model
    instructions := assistant.instructions
    tools := tools
    file_ids := file_ids
    metadata := metadata }

/-- `GET /assistants` (source lines 30–104): full scan; an empty scan yields
the sentinel response with `object="assistant"`, a non-empty scan yields the
full mapped sequence with `object="assistants"` and first/last ids from the
scan's native order.  The `limit`/`order`/`after`/`before` parameters are
accepted but unused. -/
def list_assistants (limit : Nat) (order : String) (after before : Option String)
    (astradb : Store) : ListAssistantsResponse :=
  let raw_assistants := astradb.selectAllFromTable
  match raw_assistants with
  | [] =>
      { data := []
        object := "assistant"
        first_id := "none"
        last_id := "none"
        has_more := false }
  | a :: rest =>
      { data := (a :: rest).map toPublic
        object := "assistants"
        first_id := a.id
        last_id := ((a :: rest).getLast (List.cons_ne_nil a rest)).id
        has_more := false }

/-- `POST /assistants` (source lines 116–177): defaults
`metadata`/`file_ids`/`tools` to empty, rejects with a 400 when `file_ids`
is non-empty and the literal retrieval tool is not among `tools`, otherwise
defaults `description`, upserts the row (with the raw, possibly null,
`name`), and returns an `AssistantObject` built from the validated input
with `name` defaulted to `""`.  The generated uuid and `time.mktime` clock
are the `assistant_id` and `now` parameters; the result pairs the handler's
outcome with the post-call store. -/
def create_assistant (assistant_id : String) (now : Nat)
    (create_assistant_request : CreateAssistantRequest) (astradb : Store) :
    Except HTTPException AssistantObject × Store :=
  let metadata := (create_assistant_request.metadata).getD []
  let file_ids := (create_assistant_request.file_ids).getD []
  let tools := (create_assistant_request.tools).getD []
  let retrieval_tool : AssistantObjectToolsInner :=
    { type := ToolType.retrieval, function := none }
  if retrieval_tool ∉ tools ∧ file_ids ≠ [] then
    (Except.error
      { status_code := 400
        detail := "Retrieval tool is required when file_ids is not []." },
      astradb)
  else
    let description := (create_assistant_request.description).getD ""
    let astradb' := astradb.upsert_assistant
      { id := assistant_id
        created_at := now
        name := create_assistant_request.name
        description := some description
        model := create_assistant_request.model
        instructions := create_assistant_request.instructions
        tools := some tools
        file_ids := some file_ids
        metadata := some metadata
        object := "assistant" }
    let name := (create_assistant_request.name).getD ""
    (Except.ok
      { id := assistant_id
        object := "assistant"
        created_at := now
        name := some name
        description := some description
        model := create_assistant_request.model
        instructions := create_assistant_request.instructions
        tools := tools
        file_ids := file_ids
        metadata := metadata },
      astradb')

/-- `POST /assistants/{id}` (source lines 181–225): defaults
`metadata`/`file_ids`/`tools`/`description`, reads the row; if absent it
re-invokes itself with no attempt ceiling (source line 207) — modelled by
the `fuel` parameter, where `none` means the recursion consumed every
allotted attempt without producing a result; if present it upserts the full
replacement row with a fresh `created_at` and returns the re-read record
mapped to public form.  No validation is performed and no 404 is ever
raised on this path. -/
def modify_assistant (fuel : Nat) (now : Nat) (assistant_id : String)
    (modify_assistant_request : ModifyAssistantRequest) (astradb : Store) :
    Option (Option AssistantObject × Store) :=
  match fuel with
  | 0 => none
  | Nat.succ fuel =>
    let metadata := (modify_assistant_request.metadata).getD []
    let file_ids := (modify_assistant_request.file_ids).getD []
    let tools := (modify_assistant_request.tools).getD []
    let description := (modify_assistant_request.description).getD ""
    match astradb.get_assistant assistant_id with
    | none =>
        modify_assistant fuel now assistant_id modify_assistant_request astradb
    | some _ =>
        let astradb' := astradb.upsert_assistant
          { id := assistant_id
            created_at := now
            name := modify_assistant_request.name
            description := some description
            model := modify_assistant_request.model
            instructions := modify_assistant_request.instructions
            tools := some tools
            file_ids := some file_ids
            metadata := some metadata
            object := "assistant" }
        some ((astradb'.get_assistant assistant_id).map toPublic, astradb')

/-- `DELETE /assistants/{id}` (source lines 237–245): unconditional store
delete, then `{id, deleted: true}` with no existence check. -/
def delete_assistant (assistant_id : String) (astradb : Store) :
    DeleteAssistantResponse × Store :=
  ({ id := assistant_id, deleted := true, object := "assistant" },
    astradb.delete_assistant assistant_id)

/-- `GET /assistants/{id}` (source lines 257–265): single read by id; a
missing row raises 404.  The adapter returns the public shape, modelled from
the spec (§4.1): the shared Mapper converts the stored row via `toPublic`. -/
def get_assistant (assistant_id : String) (astradb : Store) :
    Except HTTPException AssistantObject :=
  match astradb.get_assistant assistant_id with
  | none =>
      Except.error { status_code := 404, detail := "Assistant not found." }
  | some assistant => Except.ok (toPublic assistant)

/-! ### Store lemmas -/

/-- Reading the just-upserted id returns the upserted row. -/
theorem Store.get_upsert_self (s : Store) (row : AssistantRow) :
    (s.upsert_assistant row).get_assistant row.id = some row := by
  simp [Store.get_assistant, Store.upsert_assistant, List.find?]

/-- Reading a just-deleted id returns nothing. -/
theorem Store.get_delete_self (s : Store) (id : String) :
    (s.delete_assistant id).get_assistant id = none := by
  simp only [Store.get_assistant, Store.delete_assistant]
  rw [List.find?_eq_none]
  intro r hr
  have hmem := List.mem_filter.mp hr
  simpa using hmem.2

/-! ### Claims -/

/-- C1: the spec requires `ModifyAssistant` on a permanently absent id to
terminate within the retry budget (3 in the reference test) and return a
NotFound result.  The code instead re-invokes itself with no attempt
ceiling: for every attempt bound `fuel` — in particular 3 — the evaluation
on an empty store yields no result at all (`none`), never a NotFound
error, for every request and clock value. -/
theorem modify_assistant_absent_never_notFound
    (fuel now : Nat) (req : ModifyAssistantRequest) :
    modify_assistant fuel now "missing" req { rows := [] } = none := by
  induction fuel with
  | zero => rfl
  | succ n ih =>
      simpa [modify_assistant, Store.get_assistant] using ih

/-- C5: on a non-empty store, `list_assistants` returns the full mapped
scan sequence for every `limit`/`order`/`after`/`before` — the parameters
never filter, reorder or truncate — with `has_more = false` and
`first_id`/`last_id` the ids of the first and last records in the scan's
native order. -/
theorem list_assistants_nonempty_full_scan
    (limit : Nat) (order : String) (after before : Option String)
    (a : AssistantRow) (rest : List AssistantRow) :
    list_assistants limit order after before { rows := a :: rest } =
      { data := (a :: rest).map toPublic
        object := "assistants"
        first_id := a.id
        last_id := ((a :: rest).getLast (List.cons_ne_nil a rest)).id
        has_more := false } := rfl

/-- C7: `delete_assistant` returns `{id, deleted: true}` for every id and
every store state — in particular for a never-created id — and a second
delete of the same id reports success again. -/
theorem delete_assistant_always_reports_deleted
    (assistant_id : String) (astradb : Store) :
    (delete_assistant assistant_id astradb).1 =
      { id := assistant_id, deleted := true, object := "assistant" } ∧
    (delete_assistant assistant_id
        (delete_assistant assistant_id astradb).2).1 =
      { id := assistant_id, deleted := true, object := "assistant" } :=
  ⟨rfl, rfl⟩

/-- C8: on an empty store, `list_assistants` returns `data = []`,
`has_more = false` and the sentinel `"none"` first/last markers, for every
value of the `limit`/`order`/`after`/`before` arguments. -/
theorem list_assistants_empty_store
    (limit : Nat) (order : String) (after before : Option String) :
    list_assistants limit order after before { rows := [] } =
      { data := []
        object := "assistant"
        first_id := "none"
        last_id := "none"
        has_more := false } := rfl

/-- C10: the `object` discriminant of the `list_assistants` response is not
constant: it is `"assistant"` on every empty-store call and `"assistants"`
on every non-empty-store call, and the two differ. -/
theorem list_assistants_object_not_constant
    (limit : Nat) (order : String) (after before : Option String)
    (a : AssistantRow) (rest : List AssistantRow) :
    (list_assistants limit order after before { rows := [] }).object =
      "assistant" ∧
    (list_assistants limit order after before { rows := a :: rest }).object =
      "assistants" ∧
    (list_assistants limit order after before { rows := [] }).object ≠
      (list_assistants limit order after before { rows := a :: rest }).object :=
  ⟨rfl, rfl, by simp [list_assistants, Store.selectAllFromTable]⟩

/-- C2: a create request whose `file_ids` (after defaulting) is non-empty
while `tools` (after defaulting) contains no retrieval-variant entry is
rejected with the 400 validation error, and the store is returned
unchanged — no record is persisted. -/
theorem create_assistant_missing_retrieval_rejected
    (assistant_id : String) (now : Nat)
    (req : CreateAssistantRequest) (astradb : Store)
    (hfiles : req.file_ids.getD [] ≠ [])
    (htools : ∀ t ∈ req.tools.getD [], t.type ≠ ToolType.retrieval) :
    create_assistant assistant_id now req astradb =
      (Except.error
        { status_code := 400
          detail := "Retrieval tool is required when file_ids is not []." },
        astradb) := by
  have hnot : ({ type := ToolType.retrieval, function := none } :
      AssistantObjectToolsInner) ∉ req.tools.getD [] := by
    intro hmem
    exact htools _ hmem rfl
  unfold create_assistant
  rw [if_pos ⟨hnot, hfiles⟩]

/-- Witness for C2 at the reference test input: `file_ids = ["f1"]`,
`tools` absent. -/
theorem create_assistant_missing_retrieval_rejected_witness :
    create_assistant "a1" 0
      { model := some "gpt-4", name := none, description := none,
        instructions := none, tools := none, file_ids := some ["f1"],
        metadata := none }
      { rows := [] } =
      (Except.error
        { status_code := 400
          detail := "Retrieval tool is required when file_ids is not []." },
        { rows := [] }) :=
  create_assistant_missing_retrieval_rejected "a1" 0
    { model := some "gpt-4", name := none, description := none,
      instructions := none, tools := none, file_ids := some ["f1"],
      metadata := none }
    { rows := [] } (by decide) (by intro t ht; simp at ht)

/-- On a present id and positive fuel, `modify_assistant` upserts the full
replacement row built from the request's defaulted fields and returns the
re-read record; shared shape lemma for the modify claims. -/
theorem modify_assistant_found (fuel now : Nat) (assistant_id : String)
    (req : ModifyAssistantRequest) (astradb : Store)
    (hex : (astradb.get_assistant assistant_id).isSome) :
    modify_assistant (fuel + 1) now assistant_id req astradb =
      some
        (some (toPublic
          { id := assistant_id
            created_at := now
            name := req.name
            description := some (req.description.getD "")
            model := req.model
            instructions := req.instructions
            tools := some (req.tools.getD [])
            file_ids := some (req.file_ids.getD [])
            metadata := some (req.metadata.getD [])
            object := "assistant" }),
          astradb.upsert_assistant
          { id := assistant_id
            created_at := now
            name := req.name
            description := some (req.description.getD "")
            model := req.model
            instructions := req.instructions
            tools := some (req.tools.getD [])
            file_ids := some (req.file_ids.getD [])
            metadata := some (req.metadata.getD [])
            object := "assistant" }) := by
  obtain ⟨r, hr⟩ := Option.isSome_iff_exists.mp hex
  unfold modify_assistant
  rw [hr]
  have hget := Store.get_upsert_self astradb
    { id := assistant_id
      created_at := now
      name := req.name
      description := some (req.description.getD "")
      model := req.model
      instructions := req.instructions
      tools := some (req.tools.getD [])
      file_ids := some (req.file_ids.getD [])
      metadata := some (req.metadata.getD [])
      object := "assistant" }
  dsimp only
  rw [hget]
  rfl

/-- A pre-existing stored row with non-empty `tools`/`file_ids`/`metadata`,
used as the concrete previous record in the modify witnesses. -/
def row0 : AssistantRow :=
  { id := "a1"
    created_at := 1
    name := some "old"
    description := some "old description"
    model := some "gpt-3.5"
    instructions := some "old instructions"
    tools := some [{ type := ToolType.code_interpreter, function := none }]
    file_ids := some ["old-file"]
    metadata := some [("k", "v")]
    object := "assistant" }

/-- A store already holding `row0`. -/
def store0 : Store := { rows := [row0] }

/-- C4: on an existing id, the stored record after `modify_assistant` is
exactly the request's fields with defaults applied; with
`metadata`/`file_ids`/`tools` absent from the request they are reset to
empty on the stored record — whatever the previous record held, none of its
values survive. -/
theorem modify_assistant_replace_not_patch
    (fuel now : Nat) (assistant_id : String)
    (req : ModifyAssistantRequest) (astradb : Store)
    (hex : (astradb.get_assistant assistant_id).isSome)
    (hm : req.metadata = none) (hf : req.file_ids = none)
    (ht : req.tools = none) :
    ∃ resp store',
      modify_assistant (fuel + 1) now assistant_id req astradb =
        some (resp, store') ∧
      store'.get_assistant assistant_id = some
        { id := assistant_id
          created_at := now
          name := req.name
          description := some (req.description.getD "")
          model := req.model
          instructions := req.instructions
          tools := some []
          file_ids := some []
          metadata := some []
          object := "assistant" } := by
  refine ⟨_, _, modify_assistant_found fuel now assistant_id req astradb hex, ?_⟩
  have hget := Store.get_upsert_self astradb
    { id := assistant_id
      created_at := now
      name := req.name
      description := some (req.description.getD "")
      model := req.model
      instructions := req.instructions
      tools := some (req.tools.getD [])
      file_ids := some (req.file_ids.getD [])
      metadata := some (req.metadata.getD [])
      object := "assistant" }
  simpa [hm, hf, ht] using hget

/-- Witness for C4: modifying `a1` in `store0` (whose record holds
non-empty tools/file_ids/metadata) with an all-absent request stores the
row with empty tools/file_ids/metadata. -/
theorem modify_assistant_replace_not_patch_witness :
    ∃ resp store',
      modify_assistant 1 5 "a1"
        { model := some "gpt-4", name := none, description := none,
          instructions := none, tools := none, file_ids := none,
          metadata := none } store0 =
        some (resp, store') ∧
      store'.get_assistant "a1" = some
        { id := "a1"
          created_at := 5
          name := none
          description := some ""
          model := some "gpt-4"
          instructions := none
          tools := some []
          file_ids := some []
          metadata := some []
          object := "assistant" } :=
  modify_assistant_replace_not_patch 0 5 "a1"
    { model := some "gpt-4", name := none, description := none,
      instructions := none, tools := none, file_ids := none,
      metadata := none } store0 (by decide) rfl rfl rfl

/-- C6: `modify_assistant` never re-checks Invariant I1: on an existing id,
a request with non-empty `file_ids` and no retrieval-variant tool still
succeeds (the result is `some`, no error is raised) and the I1-violating
field set is persisted verbatim. -/
theorem modify_assistant_skips_invariant_check
    (fuel now : Nat) (assistant_id : String)
    (req : ModifyAssistantRequest) (astradb : Store)
    (hex : (astradb.get_assistant assistant_id).isSome)
    (hfiles : req.file_ids.getD [] ≠ [])
    (hno : ∀ t ∈ req.tools.getD [], t.type ≠ ToolType.retrieval) :
    ∃ resp store',
      modify_assistant (fuel + 1) now assistant_id req astradb =
        some (resp, store') ∧
      store'.get_assistant assistant_id = some
        { id := assistant_id
          created_at := now
          name := req.name
          description := some (req.description.getD "")
          model := req.model
          instructions := req.instructions
          tools := some (req.tools.getD [])
          file_ids := some (req.file_ids.getD [])
          metadata := some (req.metadata.getD [])
          object := "assistant" } := by
  refine ⟨_, _, modify_assistant_found fuel now assistant_id req astradb hex, ?_⟩
  exact Store.get_upsert_self astradb
    { id := assistant_id
      created_at := now
      name := req.name
      description := some (req.description.getD "")
      model := req.model
      instructions := req.instructions
      tools := some (req.tools.getD [])
      file_ids := some (req.file_ids.getD [])
      metadata := some (req.metadata.getD [])
      object := "assistant" }

/-- Witness for C6: modifying `a1` in `store0` with `file_ids = ["f1"]` and
no tools succeeds and persists the I1-violating field set. -/
theorem modify_assistant_skips_invariant_check_witness :
    ∃ resp store',
      modify_assistant 1 5 "a1"
        { model := some "gpt-4", name := none, description := none,
          instructions := none, tools := none, file_ids := some ["f1"],
          metadata := none } store0 =
        some (resp, store') ∧
      store'.get_assistant "a1" = some
        { id := "a1"
          created_at := 5
          name := none
          description := some ""
          model := some "gpt-4"
          instructions := none
          tools := some []
          file_ids := some ["f1"]
          metadata := some []
          object := "assistant" } :=
  modify_assistant_skips_invariant_check 0 5 "a1"
    { model := some "gpt-4", name := none, description := none,
      instructions := none, tools := none, file_ids := some ["f1"],
      metadata := none } store0 (by decide) (by decide)
    (by intro t ht; simp at ht)

/-- C9: `get_assistant` on an id absent from the store returns the 404
error; in particular, reading right after `delete_assistant` on any store
(whether or not the id previously existed) returns the 404 error. -/
theorem get_assistant_absent_notFound
    (assistant_id : String) (astradb astradb2 : Store)
    (h : astradb.get_assistant assistant_id = none) :
    get_assistant assistant_id astradb =
      Except.error { status_code := 404, detail := "Assistant not found." } ∧
    get_assistant assistant_id (delete_assistant assistant_id astradb2).2 =
      Except.error { status_code := 404, detail := "Assistant not found." } := by
  constructor
  · unfold get_assistant
    rw [h]
  · unfold get_assistant
    rw [show (delete_assistant assistant_id astradb2).2 =
          astradb2.delete_assistant assistant_id from rfl,
        Store.get_delete_self]

/-- Witness for C9: a never-created id on the empty store, and reading
`a1` after deleting it from `store0` where it did exist. -/
theorem get_assistant_absent_notFound_witness :
    get_assistant "a1" { rows := [] } =
      Except.error { status_code := 404, detail := "Assistant not found." } ∧
    get_assistant "a1" (delete_assistant "a1" store0).2 =
      Except.error { status_code := 404, detail := "Assistant not found." } :=
  get_assistant_absent_notFound "a1" { rows := [] } store0 rfl

/-- A create request with no `name` (and no tools/files/metadata), used to
exhibit the create/get round-trip asymmetry on `name`. -/
def reqNoName : CreateAssistantRequest :=
  { model := some "gpt-4"
    name := none
    description := none
    instructions := none
    tools := none
    file_ids := none
    metadata := none }

/-- C3 counterexample: creating with `name` absent returns an Assistant
whose `name` is `""`, while the record subsequently read back via
`get_assistant` under the same id has a null `name` — the round trip is
not equal on `name`, falsifying full round-trip equality as claimed. -/
theorem create_get_roundtrip_name_counterexample :
    ((create_assistant "a1" 7 reqNoName { rows := [] }).1.toOption.map
        AssistantObject.name) = some (some "") ∧
    ((get_assistant "a1"
        (create_assistant "a1" 7 reqNoName { rows := [] }).2).toOption.map
        AssistantObject.name) = some none ∧
    (some (some "") : Option (Option String)) ≠ some none :=
  ⟨rfl, rfl, by decide⟩

/-- C3 amended: for every successful create, the record read back via
`get_assistant` under the same id agrees with the returned Assistant on
description, model, instructions, tools, file_ids and metadata; it agrees
on name as well whenever the request supplied a name (when the name was
absent, the response carries `""` while the stored record holds null). -/
theorem create_get_roundtrip_amended
    (assistant_id : String) (now : Nat) (req : CreateAssistantRequest)
    (astradb : Store) (a : AssistantObject)
    (hok : (create_assistant assistant_id now req astradb).1 = Except.ok a) :
    ∃ b, get_assistant assistant_id
        (create_assistant assistant_id now req astradb).2 = Except.ok b ∧
      b.description = a.description ∧ b.model = a.model ∧
      b.instructions = a.instructions ∧ b.tools = a.tools ∧
      b.file_ids = a.file_ids ∧ b.metadata = a.metadata ∧
      (req.name.isSome → b.name = a.name) := by
  unfold create_assistant at hok ⊢
  by_cases hc : ({ type := ToolType.retrieval, function := none } :
      AssistantObjectToolsInner) ∉ req.tools.getD [] ∧ req.file_ids.getD [] ≠ []
  · rw [if_pos hc] at hok
    exact absurd hok (by simp)
  · rw [if_neg hc] at hok ⊢
    dsimp only at hok ⊢
    simp only [Except.ok.injEq] at hok
    subst hok
    refine ⟨toPublic
      { id := assistant_id
        created_at := now
        name := req.name
        description := some (req.description.getD "")
        model := req.model
        instructions := req.instructions
        tools := some (req.tools.getD [])
        file_ids := some (req.file_ids.getD [])
        metadata := some (req.metadata.getD [])
        object := "assistant" }, ?_, rfl, rfl, rfl, rfl, rfl, rfl, ?_⟩
    · unfold get_assistant
      rw [show (astradb.upsert_assistant
            { id := assistant_id
              created_at := now
              name := req.name
              description := some (req.description.getD "")
              model := req.model
              instructions := req.instructions
              tools := some (req.tools.getD [])
              file_ids := some (req.file_ids.getD [])
              metadata := some (req.metadata.getD [])
              object := "assistant" }).get_assistant assistant_id =
          some
            { id := assistant_id
              created_at := now
              name := req.name
              description := some (req.description.getD "")
              model := req.model
              instructions := req.instructions
              tools := some (req.tools.getD [])
              file_ids := some (req.file_ids.getD [])
              metadata := some (req.metadata.getD [])
              object := "assistant" } from Store.get_upsert_self astradb _]
    · intro hsome
      obtain ⟨n, hn⟩ := Option.isSome_iff_exists.mp hsome
      simp [toPublic, hn]

/-- The create request used in the amended round-trip witness: every
optional field, `name` included, is supplied. -/
def reqNamed : CreateAssistantRequest :=
  { model := some "gpt-4"
    name := some "nm"
    description := some "desc"
    instructions := some "inst"
    tools := some [{ type := ToolType.retrieval, function := none }]
    file_ids := some ["f1"]
    metadata := some [("k", "v")] }

/-- The Assistant returned by the successful create of `reqNamed`. -/
def respNamed : AssistantObject :=
  { id := "a2"
    object := "assistant"
    created_at := 3
    name := some "nm"
    description := some "desc"
    model := some "gpt-4"
    instructions := some "inst"
    tools := [{ type := ToolType.retrieval, function := none }]
    file_ids := ["f1"]
    metadata := [("k", "v")] }

/-- Witness for the amended C3 at the reference test input
(`file_ids=["f1"]`, `tools=[retrieval]`, all optionals supplied). -/
theorem create_get_roundtrip_amended_witness :
    ∃ b, get_assistant "a2"
        (create_assistant "a2" 3 reqNamed { rows := [] }).2 = Except.ok b ∧
      b.description = respNamed.description ∧ b.model = respNamed.model ∧
      b.instructions = respNamed.instructions ∧ b.tools = respNamed.tools ∧
      b.file_ids = respNamed.file_ids ∧ b.metadata = respNamed.metadata ∧
      (reqNamed.name.isSome → b.name = respNamed.name) :=
  create_get_roundtrip_amended "a2" 3 reqNamed { rows := [] } respNamed rfl

end Assistants
